import Mathlib

/-!
Verification of the sakura authentication/profile front-end.

The repository consists of two cooperating pieces, both in
`src/src/components/profile/EditProfileForm.tsx`:

* `AuthProvider` (the session manager): state `session`, `user`, `profile`,
  `isLoading`; an `onAuthStateChange` subscription handler; and the
  operations `fetchProfile`, `signIn`, `signUp`, `signOut`, `updateProfile`.
* `EditProfileForm` (the profile editor): `handleSubmit` with username
  validation, a username-uniqueness pre-check, optional avatar upload, and
  a commit through `updateProfile`.

The shallow embedding below translates these functions into pure Lean
functions.  Every backend (supabase) call is made explicit: each embedded
function takes the responses of the remote calls it performs as parameters
(the "oracle" view of an async request/response workflow), and returns,
besides its new state, the ordered list of externally visible effects it
performed (queries, inserts, updates, toasts, navigations).  Frame claims
("no query is issued", "the profile is not re-fetched") become statements
about that effect list.  JavaScript strings are modelled by Lean `String`
(sequences of Unicode scalar values); all inputs exercised by the claims
are ASCII, where the two notions of length and character class coincide.
-/

namespace Sakura

/-- The application-level `Profile` row (`profiles` table), as declared in
the `Profile` interface of the source: id, username, optional display
name / avatar url / bio, and an integer coin counter. -/
structure Profile where
  id : String
  username : String
  display_name : Option String
  avatar_url : Option String
  bio : Option String
  coins : Int
  deriving DecidableEq, Repr

/-- The authenticated user record, restricted to the fields the source
reads: `id`, `email` (possibly absent), `email_confirmed_at` (absent when
the email is unconfirmed), and `user_metadata.display_name`. -/
structure UserT where
  id : String
  email : Option String
  email_confirmed_at : Option String
  display_name_meta : Option String
  deriving DecidableEq, Repr

/-- A provider session; the source only ever reads `session?.user`, which
may be absent, so the session is modelled as that optional user. -/
structure Session where
  user : Option UserT
  deriving DecidableEq, Repr

/-- The reactive state owned by `AuthProvider`: the four `useState` cells
`session`, `user`, `profile`, `isLoading`. -/
structure AuthState where
  session : Option Session
  user : Option UserT
  profile : Option Profile
  isLoading : Bool
  deriving DecidableEq, Repr

/-- A provider error object as surfaced by the supabase client: an error
`code` (e.g. the "no rows" signal `"PGRST116"`) and a `message`. -/
structure PgError where
  code : String
  message : String
  deriving DecidableEq, Repr

/-- The auth events dispatched to the `onAuthStateChange` subscription. -/
inductive AuthEvent
  | SIGNED_IN
  | SIGNED_OUT
  | TOKEN_REFRESHED
  | USER_UPDATED
  deriving DecidableEq, Repr

/-- Externally visible actions of the `onAuthStateChange` handler:
invocations of `fetchProfile` (a backend round-trip) and the one toast the
handler itself shows (the "Account Verified!" notification). -/
inductive Effect
  | fetchProfile (userId : String)
  | toastVerified
  deriving DecidableEq, Repr

/-- The state every clearing path resets to: no session, no user, no
profile, loading finished. -/
def clearedAuthState : AuthState :=
  { session := none, user := none, profile := none, isLoading := false }

/-- The `onAuthStateChange` callback (source lines 327-370).  `SIGNED_OUT`
clears all state and returns at once.  Every other event stores the
session and its user; when a user is present the handler awaits
`fetchProfile(session.user.id)` — `fetchResult` is the profile value that
fetch leaves in the `profile` cell (it also resets `isLoading`) — and, for
a `SIGNED_IN` whose user has `email_confirmed_at` set, shows the verified
toast.  The trailing `switch` performs a second `fetchProfile` for
`USER_UPDATED` and only logs for `TOKEN_REFRESHED`. -/
def onAuthEvent (st : AuthState) (event : AuthEvent) (session : Option Session)
    (fetchResult : Option Profile) : AuthState × List Effect :=
  if event = AuthEvent.SIGNED_OUT then
    (clearedAuthState, [])
  else
    let sessUser := session.bind Session.user
    let st1 : AuthState := { st with session := session, user := sessUser }
    let (st2, effs) : AuthState × List Effect :=
      match sessUser with
      | some u =>
          ({ st1 with profile := fetchResult, isLoading := false },
           [Effect.fetchProfile u.id] ++
             (if event = AuthEvent.SIGNED_IN ∧ u.email_confirmed_at.isSome = true then
               [Effect.toastVerified]
             else []))
      | none => ({ st1 with profile := none, isLoading := false }, [])
    let switchEffs : List Effect :=
      match event, sessUser with
      | AuthEvent.USER_UPDATED, some u => [Effect.fetchProfile u.id]
      | _, _ => []
    (st2, effs ++ switchEffs)

/-- Externally visible actions of `signOut`: the provider sign-out call,
the success toast, the failure toast, and the navigation to the login
view. -/
inductive SignOutEffect
  | providerSignOut
  | toastLoggedOut
  | toastSignOutError
  | navigateLogin
  deriving DecidableEq, Repr

/-- `signOut` (source lines 542-569).  It calls `supabase.auth.signOut()`
(`providerError` is the `error` that call returns) and throws on error;
only on success does it clear the state, toast "Logged Out", and navigate
to `/auth/login`.  The catch block of a failed sign-out shows the error
toast and leaves the state untouched. -/
def signOut (st : AuthState) (providerError : Option PgError) :
    AuthState × List SignOutEffect :=
  match providerError with
  | none =>
      (clearedAuthState,
       [SignOutEffect.providerSignOut, SignOutEffect.toastLoggedOut,
        SignOutEffect.navigateLogin])
  | some _ =>
      (st, [SignOutEffect.providerSignOut, SignOutEffect.toastSignOutError])

/-- JavaScript `String.prototype.trim()`: the string with leading and
trailing whitespace removed, modelled structurally over the character
list. -/
def jsTrim (s : String) : String :=
  String.mk (((s.data.dropWhile Char.isWhitespace).reverse.dropWhile
    Char.isWhitespace).reverse)

/-- JavaScript `email.split('@')[0]`: the prefix of the string before the
first `'@'` (the whole string when no `'@'` occurs). -/
def emailLocalPart (e : String) : String :=
  String.mk (e.data.takeWhile (fun c => c != '@'))

/-- The default-username expression of the profile-creation branch
(source line 400): `userData.user.email?.split('@')[0] ||
\x60user_${Date.now()}\x60`.  An absent email, and also an empty
local-part (the empty string is falsy in JavaScript), fall back to the
timestamp-based name. -/
def deriveUsername (email : Option String) (now : Nat) : String :=
  match email with
  | some e =>
      if emailLocalPart e = "" then "user_" ++ toString now else emailLocalPart e
  | none => "user_" ++ toString now

/-- The row object inserted by `fetchProfile` when no profile exists
(source lines 396-406): derived username, display name from the user
metadata, null avatar and bio, and zero coins. -/
def newProfileFor (uid : String) (u : UserT) (now : Nat) : Profile :=
  { id := uid,
    username := deriveUsername u.email now,
    display_name := u.display_name_meta,
    avatar_url := none,
    bio := none,
    coins := 0 }

/-- Externally visible actions of `fetchProfile`: the select by id, the
`getUser` round-trip, the insert of a fresh row, and the two toasts
("Profile Created" and the generic error toast of the catch block). -/
inductive FetchEffect
  | selectProfile (userId : String)
  | getUser
  | insertProfile (p : Profile)
  | toastProfileCreated
  | toastFetchError
  deriving DecidableEq, Repr

/-- `fetchProfile` (source lines 378-436).  The `profiles` table is
modelled as a list of rows; the select-by-id with `.single()` yields the
first row whose id matches, or the `PGRST116` "no rows" signal, on which
the creation branch runs: `getUser` (`getUserResult`; absent user data
throws into the catch block), insert of `newProfileFor` (`insertError`
is the insert's error, which likewise throws), adoption of the new row.
Returns the new table, the value left in the `profile` state cell (the
catch block sets it to `none`), and the effect trace.  Transient
backend failures of the select itself are outside this model: the select
result is derived from the concrete table. -/
def fetchProfile (db : List Profile) (userId : String)
    (getUserResult : Option UserT) (now : Nat) (insertError : Option PgError) :
    List Profile × Option Profile × List FetchEffect :=
  match db.find? (fun p => p.id == userId) with
  | some row =>
      (db, some row, [FetchEffect.selectProfile userId])
  | none =>
      match getUserResult with
      | none =>
          (db, none,
           [FetchEffect.selectProfile userId, FetchEffect.getUser,
            FetchEffect.toastFetchError])
      | some u =>
          match insertError with
          | some _ =>
              (db, none,
               [FetchEffect.selectProfile userId, FetchEffect.getUser,
                FetchEffect.insertProfile (newProfileFor userId u now),
                FetchEffect.toastFetchError])
          | none =>
              (db ++ [newProfileFor userId u now], some (newProfileFor userId u now),
               [FetchEffect.selectProfile userId, FetchEffect.getUser,
                FetchEffect.insertProfile (newProfileFor userId u now),
                FetchEffect.toastProfileCreated])

/-- A character matched by the class `[a-zA-Z0-9_]`. -/
def isUsernameChar (c : Char) : Bool :=
  ('a' ≤ c && c ≤ 'z') || ('A' ≤ c && c ≤ 'Z') || ('0' ≤ c && c ≤ '9') || c == '_'

/-- The test `/^[a-zA-Z0-9_]+$/.test(s)`: a non-empty string all of whose
characters are in the class. -/
def usernameRegexTest (s : String) : Bool :=
  !s.data.isEmpty && s.data.all isUsernameChar

/-- The username checks of `handleSubmit` (source lines 102-113), in
source order with short-circuit: falsy after `trim()` ("required"),
length below 3, length above 30, character class — returning the message
of the error the first failing check throws, or nothing when all pass. -/
def validateUsername (s : String) : Option String :=
  if jsTrim s = "" then some "Username is required"
  else if s.length < 3 then some "Username must be at least 3 characters long"
  else if s.length > 30 then some "Username must be less than 30 characters"
  else if usernameRegexTest s = false then
    some "Username can only contain letters, numbers, and underscores"
  else none

/-- The validation sequence as claim C6 words it, for comparison with the
source's `validateUsername`: the first check is literal non-emptiness of
the submitted string, with no trimming; the remaining checks are the
same. -/
def validateUsername_claim (s : String) : Option String :=
  if s = "" then some "Username is required"
  else if s.length < 3 then some "Username must be at least 3 characters long"
  else if s.length > 30 then some "Username must be less than 30 characters"
  else if usernameRegexTest s = false then
    some "Username can only contain letters, numbers, and underscores"
  else none

/-- The form draft of `EditProfileForm`: username, display name, bio. -/
structure FormData where
  username : String
  display_name : String
  bio : String
  deriving DecidableEq, Repr

/-- The answer of a `.single()` row query: possibly a row (here reduced
to the selected `username` column) and possibly an error. -/
structure CheckResult where
  data : Option String
  error : Option PgError
  deriving DecidableEq, Repr

/-- Outcome of a form submission. -/
inductive SubmitResult
  | success
  | failure (msg : String)
  deriving DecidableEq, Repr

/-- Externally visible actions of `handleSubmit`: the uniqueness query,
the avatar upload attempt, the `updateProfile` call with its payload, the
toasts, the `onProfileUpdate` callback and the dialog close. -/
inductive SubmitEffect
  | usernameQuery (username excludeId : String)
  | uploadAvatarCall
  | callUpdateProfile (username display_name bio : String)
      (avatar_url : Option String)
  | toastSuccess
  | toastError (msg : String)
  | onProfileUpdateCallback
  | closeDialog
  deriving DecidableEq, Repr

/-- The catch block's user-facing message: `error.message || "Failed to
update profile"` (an empty message string is falsy). -/
def errMsg (e : PgError) : String :=
  if e.message = "" then "Failed to update profile" else e.message

/-- `handleSubmit` (source lines 92-166).  Oracles: `check` answers the
uniqueness query (only consulted when the username changed),
`uploadResult` is the url `uploadAvatar` returns (null on upload
failure; only consulted when a file is attached), `updateError` is the
error `updateProfile` returns.  Any thrown error lands in the catch
block, which toasts the message and reports failure. -/
def handleSubmit (user : Option UserT) (profile : Option Profile)
    (fd : FormData) (hasAvatarFile : Bool) (check : CheckResult)
    (uploadResult : Option String) (updateError : Option PgError) :
    SubmitResult × List SubmitEffect :=
  match user with
  | none =>
      (SubmitResult.failure "You must be logged in to update your profile",
       [SubmitEffect.toastError "You must be logged in to update your profile"])
  | some u =>
      match validateUsername fd.username with
      | some msg => (SubmitResult.failure msg, [SubmitEffect.toastError msg])
      | none =>
          let checkStep : Option String × List SubmitEffect :=
            if profile.map Profile.username ≠ some fd.username then
              let effsQ := [SubmitEffect.usernameQuery fd.username u.id]
              if check.data.isSome then
                (some "Username is already taken", effsQ)
              else
                match check.error with
                | some e =>
                    if e.code ≠ "PGRST116" then (some (errMsg e), effsQ)
                    else (none, effsQ)
                | none => (none, effsQ)
            else (none, [])
          match checkStep with
          | (some msg, effs) =>
              (SubmitResult.failure msg, effs ++ [SubmitEffect.toastError msg])
          | (none, effs) =>
              let avatarStep : Option (Option String) × List SubmitEffect :=
                if hasAvatarFile then
                  match uploadResult with
                  | some url => (some (some url), [SubmitEffect.uploadAvatarCall])
                  | none => (none, [SubmitEffect.uploadAvatarCall])
                else (some (profile.bind Profile.avatar_url), [])
              match avatarStep with
              | (none, effsA) =>
                  (SubmitResult.failure "Failed to upload avatar",
                   effs ++ effsA ++
                     [SubmitEffect.toastError "Failed to upload avatar"])
              | (some avatar_url, effsA) =>
                  let effsU := effs ++ effsA ++
                    [SubmitEffect.callUpdateProfile fd.username fd.display_name
                      fd.bio avatar_url]
                  match updateError with
                  | some e =>
                      (SubmitResult.failure (errMsg e),
                       effsU ++ [SubmitEffect.toastError (errMsg e)])
                  | none =>
                      (SubmitResult.success,
                       effsU ++ [SubmitEffect.toastSuccess,
                                 SubmitEffect.onProfileUpdateCallback,
                                 SubmitEffect.closeDialog])

/-- The uniqueness query of `handleSubmit` (source lines 117-122) run
against a concrete `profiles` table: `select('username').neq('id',
user.id).eq('username', candidate).single()` answers with the first
matching row's username, or with the `PGRST116` "no rows" error. -/
def runUsernameQuery (db : List Profile) (username excludeId : String) :
    CheckResult :=
  match db.find? (fun q => q.id != excludeId && q.username == username) with
  | some q => { data := some q.username, error := none }
  | none =>
      { data := none,
        error := some { code := "PGRST116", message := "no rows returned" } }

/-- A `Partial<Profile>` argument to `updateProfile`: each field is
either absent or supplies a new value (the nullable columns can also be
set to null explicitly, hence the nested options). -/
structure ProfileUpdates where
  id : Option String := none
  username : Option String := none
  display_name : Option (Option String) := none
  avatar_url : Option (Option String) := none
  bio : Option (Option String) := none
  coins : Option Int := none
  deriving DecidableEq, Repr

/-- The object spread `{ ...prev, ...updates }` of the `setProfile` call
in `updateProfile`: each field present in `updates` overrides the
previous profile's field, every other field is kept. -/
def mergeProfile (p : Profile) (upd : ProfileUpdates) : Profile :=
  { id := upd.id.getD p.id,
    username := upd.username.getD p.username,
    display_name := upd.display_name.getD p.display_name,
    avatar_url := upd.avatar_url.getD p.avatar_url,
    bio := upd.bio.getD p.bio,
    coins := upd.coins.getD p.coins }

/-- The error `updateProfile` returns: the thrown "User not
authenticated" error caught by its own catch block, or the error object
of the failed row update. -/
inductive UpdError
  | notAuthenticated
  | provider (e : PgError)
  deriving DecidableEq, Repr

/-- Externally visible actions of `updateProfile`: the row update keyed
by the identity id, and the success/failure toasts. -/
inductive UpdEffect
  | dbUpdate (id : String) (upd : ProfileUpdates)
  | toastUpdated
  | toastUpdateFailed (msg : String)
  deriving DecidableEq, Repr

/-- `updateProfile` (source lines 571-598).  Requires an authenticated
user (otherwise the thrown error is caught and returned, with no backend
call).  Otherwise it updates the row keyed by the user's id
(`backendError` is the error that update returns): on success it merges
the supplied fields into the in-memory profile (no re-fetch), on failure
it leaves the in-memory profile untouched and returns the provider
error.  Result: the new `profile` state cell, the returned error, and
the effect trace. -/
def updateProfile (user : Option UserT) (profile : Option Profile)
    (upd : ProfileUpdates) (backendError : Option PgError) :
    Option Profile × Option UpdError × List UpdEffect :=
  match user with
  | none => (profile, some UpdError.notAuthenticated, [])
  | some usr =>
      match backendError with
      | none =>
          (profile.map (fun p => mergeProfile p upd), none,
           [UpdEffect.dbUpdate usr.id upd, UpdEffect.toastUpdated])
      | some e =>
          (profile, some (UpdError.provider e),
           [UpdEffect.dbUpdate usr.id upd, UpdEffect.toastUpdateFailed e.message])

/-- Externally visible actions of `signUp`: the username pre-check
query, the provider sign-up call, and the four toasts. -/
inductive SignUpEffect
  | usernameQuery (username : String)
  | providerSignUp (email password username : String)
  | toastSignupFailed (msg : String)
  | toastAccountExists
  | toastSignupSuccess
  deriving DecidableEq, Repr

/-- The answer of the provider sign-up call: its `error`, and
`data.user?.identities?.length` (absent when the user or the identities
array is absent). -/
structure SignUpProviderResult where
  error : Option PgError
  identitiesLen : Option Nat
  deriving DecidableEq, Repr

/-- `signUp` (source lines 476-540).  The availability pre-check
destructures only `data` from the query — its `error` is discarded.  A
row means the username is taken (reported before any provider call);
otherwise the provider sign-up runs: a provider error is reported with
its message, an `identities` array of length zero signals an existing
account under that email, and anything else is the "check your email"
success path. -/
def signUp (email password username : String) (check : CheckResult)
    (provider : SignUpProviderResult) : Option String × List SignUpEffect :=
  match check.data with
  | some _ =>
      (some "Username is already taken",
       [SignUpEffect.usernameQuery username,
        SignUpEffect.toastSignupFailed "Username is already taken"])
  | none =>
      let effs := [SignUpEffect.usernameQuery username,
                   SignUpEffect.providerSignUp email password username]
      match provider.error with
      | some e =>
          (some e.message, effs ++ [SignUpEffect.toastSignupFailed e.message])
      | none =>
          if provider.identitiesLen = some 0 then
            (some "Account exists", effs ++ [SignUpEffect.toastAccountExists])
          else
            (none, effs ++ [SignUpEffect.toastSignupSuccess])

/-! Concrete sample values used by closed counterexamples and witnesses. -/

/-- A user with a confirmed email address. -/
def exUser : UserT :=
  { id := "user-1", email := some "alice@example.com",
    email_confirmed_at := some "2024-01-01T00:00:00Z",
    display_name_meta := none }

/-- A session carrying `exUser`. -/
def exSession : Session := { user := some exUser }

/-- The profile row of `exUser`. -/
def exProfile : Profile :=
  { id := "user-1", username := "alice", display_name := none,
    avatar_url := none, bio := none, coins := 0 }

/-- An authenticated state: session, user and profile all present. -/
def exState : AuthState :=
  { session := some exSession, user := some exUser,
    profile := some exProfile, isLoading := false }

/-- An unauthenticated starting state (as after startup with no session). -/
def exUnauth : AuthState :=
  { session := none, user := none, profile := none, isLoading := true }

/-- A profile row belonging to a different identity than `exUser`. -/
def exOther : Profile :=
  { id := "user-2", username := "valid_99", display_name := none,
    avatar_url := none, bio := none, coins := 7 }

/-- A form draft whose username passes every validation check. -/
def exForm : FormData :=
  { username := "valid_99", display_name := "", bio := "" }

/-- The timestamp fallback username is never the empty string. -/
theorem userFallback_ne_empty (now : Nat) : ("user_" ++ toString now) ≠ "" := by
  intro h
  have h2 := congrArg String.length h
  simp [String.length_append] at h2
  exact absurd h2.1 (by decide)

/-- The derived default username is never the empty string. -/
theorem deriveUsername_ne_empty (email : Option String) (now : Nat) :
    deriveUsername email now ≠ "" := by
  cases email with
  | none => exact userFallback_ne_empty now
  | some e =>
      simp only [deriveUsername]
      split
      · exact userFallback_ne_empty now
      · assumption

/-- Claim C1, counterexample: when the provider sign-out call returns an
error, `signOut` does NOT clear the in-memory state (the session is still
present afterwards) and does NOT navigate to the login view — the claim's
"regardless of provider outcome" fails on the error branch. -/
theorem C1_counterexample :
    (signOut exState (some { code := "500", message := "network failure" })).1
        = exState ∧
    SignOutEffect.navigateLogin ∉
      (signOut exState (some { code := "500", message := "network failure" })).2 := by
  decide

/-- Claim C1 (amended): on provider sign-out success the session,
identity, and profile state are cleared synchronously and the caller is
navigated to the login view; on a provider sign-out error the state is
left unchanged, an error notification is shown, and no navigation
occurs. -/
theorem C1_signOut_amended (st : AuthState) (e : PgError) :
    signOut st none =
      (clearedAuthState,
       [SignOutEffect.providerSignOut, SignOutEffect.toastLoggedOut,
        SignOutEffect.navigateLogin]) ∧
    signOut st (some e) =
      (st, [SignOutEffect.providerSignOut, SignOutEffect.toastSignOutError]) :=
  ⟨rfl, rfl⟩

/-- Claim C2, counterexample: a `TOKEN_REFRESHED` event with a non-null
session does re-fetch the profile — the handler performs a
`fetchProfile` backend call, contradicting "no other state change or
backend call". -/
theorem C2_counterexample :
    Effect.fetchProfile "user-1" ∈
      (onAuthEvent exState AuthEvent.TOKEN_REFRESHED (some exSession)
        (some exProfile)).2 := by
  decide

/-- Claim C2 (amended): for every `TOKEN_REFRESHED` event whose session
carries a user, the handler updates the stored session and user AND
re-fetches the profile (exactly one `fetchProfile` backend call, whose
result becomes the new in-memory profile); only the dedicated
`TOKEN_REFRESHED` switch case is a no-op beyond logging. -/
theorem C2_token_refreshed_amended (st : AuthState) (sess : Session) (u : UserT)
    (fr : Option Profile) (hu : sess.user = some u) :
    onAuthEvent st AuthEvent.TOKEN_REFRESHED (some sess) fr =
      ({ session := some sess, user := some u, profile := fr, isLoading := false },
       [Effect.fetchProfile u.id]) := by
  simp [onAuthEvent, hu]

/-- Witness for C2 (amended) at a concrete state and session. -/
theorem C2_token_refreshed_witness :
    onAuthEvent exState AuthEvent.TOKEN_REFRESHED (some exSession) (some exProfile) =
      ({ session := some exSession, user := some exUser,
         profile := some exProfile, isLoading := false },
       [Effect.fetchProfile "user-1"]) :=
  C2_token_refreshed_amended exState exSession exUser (some exProfile) rfl

/-- Claim C3, counterexample: the verified notification is NOT one-shot.
Starting unauthenticated, a first `SIGNED_IN` with a confirmed email
emits the toast, and a second `SIGNED_IN` delivered in the resulting
state emits it again. -/
theorem C3_counterexample :
    Effect.toastVerified ∈
      (onAuthEvent exUnauth AuthEvent.SIGNED_IN (some exSession) (some exProfile)).2 ∧
    Effect.toastVerified ∈
      (onAuthEvent
         (onAuthEvent exUnauth AuthEvent.SIGNED_IN (some exSession) (some exProfile)).1
         AuthEvent.SIGNED_IN (some exSession) (some exProfile)).2 := by
  decide

/-- Claim C3 (amended): the verified notification is triggered on EVERY
`SIGNED_IN` event whose session user has a confirmed email (the handler
keeps no one-shot flag), and on no other event and never for an
unconfirmed email. -/
theorem C3_verified_toast_amended (st : AuthState) (sess : Session) (u : UserT)
    (fr : Option Profile) (ev : AuthEvent) (hu : sess.user = some u) :
    (ev = AuthEvent.SIGNED_IN → u.email_confirmed_at.isSome = true →
      Effect.toastVerified ∈ (onAuthEvent st ev (some sess) fr).2) ∧
    (ev ≠ AuthEvent.SIGNED_IN →
      Effect.toastVerified ∉ (onAuthEvent st ev (some sess) fr).2) ∧
    (u.email_confirmed_at = none →
      Effect.toastVerified ∉ (onAuthEvent st ev (some sess) fr).2) := by
  refine ⟨?_, ?_, ?_⟩
  · rintro rfl h
    simp [onAuthEvent, hu, h]
  · intro h
    cases ev <;> simp_all [onAuthEvent, hu]
  · intro h
    cases ev <;> simp [onAuthEvent, hu, h]

/-- Witness for C3 (amended): a concrete `SIGNED_IN` with a confirmed
email emits the verified toast. -/
theorem C3_verified_toast_witness :
    Effect.toastVerified ∈
      (onAuthEvent exState AuthEvent.SIGNED_IN (some exSession) (some exProfile)).2 :=
  (C3_verified_toast_amended exState exSession exUser (some exProfile)
    AuthEvent.SIGNED_IN rfl).1 rfl rfl

/-- Claim C4: every `SIGNED_OUT` event clears session, identity and
profile synchronously and performs no effect at all — in particular no
profile fetch — whatever the prior state (including one whose
`isLoading` flag marks an unresolved fetch) and whatever session payload
accompanies the event. -/
theorem C4_signed_out_clears (st : AuthState) (sess : Option Session)
    (fr : Option Profile) :
    onAuthEvent st AuthEvent.SIGNED_OUT sess fr = (clearedAuthState, []) := rfl

/-- Claim C5: when no profile row exists for an identity, `fetchProfile`
inserts exactly one new row — with `coins = 0` and a non-empty username
equal to the email local-part when that is available, or the
timestamp-based fallback when the email is absent — adopts it as the
current profile, and a subsequent `fetchProfile` for the same identity
returns that very row with no further insert (whatever the second call's
`getUser` answer, clock, or insert oracle say). -/
theorem C5_fetchProfile_creates_once (db : List Profile) (uid : String)
    (u : UserT) (now : Nat)
    (hnone : db.find? (fun p => p.id == uid) = none) :
    ∃ p : Profile,
      fetchProfile db uid (some u) now none =
        (db ++ [p], some p,
         [FetchEffect.selectProfile uid, FetchEffect.getUser,
          FetchEffect.insertProfile p, FetchEffect.toastProfileCreated]) ∧
      p.id = uid ∧ p.coins = 0 ∧ p.username ≠ "" ∧
      (∀ e, u.email = some e → emailLocalPart e ≠ "" →
        p.username = emailLocalPart e) ∧
      (u.email = none → p.username = "user_" ++ toString now) ∧
      (∀ gu now2 ie, fetchProfile (db ++ [p]) uid gu now2 ie =
        (db ++ [p], some p, [FetchEffect.selectProfile uid])) := by
  refine ⟨newProfileFor uid u now, ?_, rfl, rfl,
    deriveUsername_ne_empty u.email now, ?_, ?_, ?_⟩
  · simp [fetchProfile, hnone]
  · intro e he hne
    simp [newProfileFor, deriveUsername, he, hne]
  · intro he
    simp [newProfileFor, deriveUsername, he]
  · intro gu now2 ie
    have hfind : (db ++ [newProfileFor uid u now]).find?
        (fun p => p.id == uid) = some (newProfileFor uid u now) := by
      rw [List.find?_append, hnone]
      simp [newProfileFor]
    simp [fetchProfile, hfind]

/-- Claim C6, counterexample: on the all-whitespace username `"   "` the
code's first check (`!username.trim()`) fires and reports "Username is
required", whereas the claim's check sequence — literal non-emptiness
first — would pass the first three checks and report the character-class
error.  The claim therefore misattributes the error on such inputs. -/
theorem C6_counterexample :
    validateUsername "   " = some "Username is required" ∧
    validateUsername_claim "   " =
      some "Username can only contain letters, numbers, and underscores" := by
  decide

/-- Claim C6 (amended): username validation checks, in this order and
short-circuiting at the first failure, each with its own distinct error:
non-empty AFTER TRIMMING WHITESPACE, length at least 3, length at most
30, characters drawn only from the class; `"ab"` and a 31-character name
and `"bad name!"` are each rejected with their respective error, while
`"valid_99"` passes all checks. -/
theorem C6_username_validation_amended :
    (∀ s, jsTrim s = "" → validateUsername s = some "Username is required") ∧
    (∀ s, jsTrim s ≠ "" → s.length < 3 →
      validateUsername s = some "Username must be at least 3 characters long") ∧
    (∀ s, jsTrim s ≠ "" → ¬ s.length < 3 → s.length > 30 →
      validateUsername s = some "Username must be less than 30 characters") ∧
    (∀ s, jsTrim s ≠ "" → ¬ s.length < 3 → ¬ s.length > 30 →
      usernameRegexTest s = false →
      validateUsername s =
        some "Username can only contain letters, numbers, and underscores") ∧
    (∀ s, jsTrim s ≠ "" → ¬ s.length < 3 → ¬ s.length > 30 →
      usernameRegexTest s = true → validateUsername s = none) ∧
    List.Pairwise (· ≠ ·)
      ["Username is required", "Username must be at least 3 characters long",
       "Username must be less than 30 characters",
       "Username can only contain letters, numbers, and underscores"] ∧
    validateUsername "ab" = some "Username must be at least 3 characters long" ∧
    validateUsername (String.mk (List.replicate 31 'a')) =
      some "Username must be less than 30 characters" ∧
    validateUsername "bad name!" =
      some "Username can only contain letters, numbers, and underscores" ∧
    validateUsername "valid_99" = none := by
  refine ⟨?_, ?_, ?_, ?_, ?_, by decide, by decide, by decide, by decide, by decide⟩
  · intro s h
    simp [validateUsername, h]
  · intro s h h3
    simp [validateUsername, h, h3]
  · intro s h h3 h30
    simp [validateUsername, h, h3, h30]
  · intro s h h3 h30 hre
    simp [validateUsername, h, h3, h30, hre]
  · intro s h h3 h30 hre
    simp [validateUsername, h, h3, h30, hre]

/-- Witness for C6 (amended): the first check fires on the empty string. -/
theorem C6_username_validation_witness :
    validateUsername "" = some "Username is required" :=
  C6_username_validation_amended.1 "" (by decide)

/-- Claim C7: when the (valid) submitted username equals the current
profile's username, `handleSubmit` issues no uniqueness query and runs to
a successful commit — the effect trace is exactly the `updateProfile`
call followed by the success toast, callback, and dialog close. -/
theorem C7_same_username_no_query (u : UserT) (p : Profile) (fd : FormData)
    (check : CheckResult) (uploadResult : Option String)
    (hvalid : validateUsername fd.username = none)
    (hsame : fd.username = p.username) :
    handleSubmit (some u) (some p) fd false check uploadResult none =
      (SubmitResult.success,
       [SubmitEffect.callUpdateProfile fd.username fd.display_name fd.bio
          p.avatar_url,
        SubmitEffect.toastSuccess, SubmitEffect.onProfileUpdateCallback,
        SubmitEffect.closeDialog]) ∧
    (∀ q i, SubmitEffect.usernameQuery q i ∉
      (handleSubmit (some u) (some p) fd false check uploadResult none).2) := by
  have heq : handleSubmit (some u) (some p) fd false check uploadResult none =
      (SubmitResult.success,
       [SubmitEffect.callUpdateProfile fd.username fd.display_name fd.bio
          p.avatar_url,
        SubmitEffect.toastSuccess, SubmitEffect.onProfileUpdateCallback,
        SubmitEffect.closeDialog]) := by
    have hvalid2 : validateUsername p.username = none := by
      rw [← hsame]
      exact hvalid
    simp [handleSubmit, hsame, hvalid2]
  refine ⟨heq, ?_⟩
  intro q i
  rw [heq]
  simp

/-- Witness for C7: resubmitting `exProfile`'s own username succeeds with
no uniqueness query. -/
theorem C7_same_username_witness :
    handleSubmit (some exUser) (some exProfile)
        { username := "alice", display_name := "", bio := "" } false
        { data := none, error := none } none none =
      (SubmitResult.success,
       [SubmitEffect.callUpdateProfile "alice" "" "" none,
        SubmitEffect.toastSuccess, SubmitEffect.onProfileUpdateCallback,
        SubmitEffect.closeDialog]) :=
  (C7_same_username_no_query exUser exProfile
    { username := "alice", display_name := "", bio := "" }
    { data := none, error := none } none (by decide) rfl).1

/-- Claim C8: when the (valid) submitted username differs from the
current profile's username, (1) a row of a different identity already
carrying that username makes the submission fail with the taken-username
error, with no `updateProfile` call in the trace; (2) the provider's "no
rows" answer (`PGRST116`) is treated as no conflict and the submission
proceeds to the `updateProfile` call; (3) any other query error aborts
the submission with that error. -/
theorem C8_changed_username_conflict (u : UserT) (p : Profile) (fd : FormData)
    (db : List Profile) (upl : Option String) (upd : Option PgError)
    (hvalid : validateUsername fd.username = none)
    (hdiff : fd.username ≠ p.username) :
    (∀ q, db.find? (fun r => r.id != u.id && r.username == fd.username) = some q →
      handleSubmit (some u) (some p) fd false
          (runUsernameQuery db fd.username u.id) upl upd =
        (SubmitResult.failure "Username is already taken",
         [SubmitEffect.usernameQuery fd.username u.id,
          SubmitEffect.toastError "Username is already taken"])) ∧
    (db.find? (fun r => r.id != u.id && r.username == fd.username) = none →
      SubmitEffect.callUpdateProfile fd.username fd.display_name fd.bio
          p.avatar_url ∈
        (handleSubmit (some u) (some p) fd false
          (runUsernameQuery db fd.username u.id) upl upd).2) ∧
    (∀ check : CheckResult, check.data = none → ∀ e, check.error = some e →
      e.code ≠ "PGRST116" →
      handleSubmit (some u) (some p) fd false check upl upd =
        (SubmitResult.failure (errMsg e),
         [SubmitEffect.usernameQuery fd.username u.id,
          SubmitEffect.toastError (errMsg e)])) := by
  have hdiff2 : p.username ≠ fd.username := Ne.symm hdiff
  refine ⟨?_, ?_, ?_⟩
  · intro q hq
    simp [handleSubmit, runUsernameQuery, hq, hvalid, hdiff2]
  · intro hq
    cases upd <;> simp [handleSubmit, runUsernameQuery, hq, hvalid, hdiff2]
  · intro check hdata e herr hcode
    simp [handleSubmit, hvalid, hdiff2, hdata, herr, hcode]

/-- Witness for C8 at concrete data: `exUser` (profile username
`"alice"`) submits `"valid_99"`, which `exOther` already holds. -/
theorem C8_changed_username_witness :
    handleSubmit (some exUser) (some exProfile) exForm false
        (runUsernameQuery [exOther] "valid_99" "user-1") none none =
      (SubmitResult.failure "Username is already taken",
       [SubmitEffect.usernameQuery "valid_99" "user-1",
        SubmitEffect.toastError "Username is already taken"]) :=
  (C8_changed_username_conflict exUser exProfile exForm [exOther] none none
    (by decide) (by decide)).1 exOther (by decide)

/-- Witness for C5 on an empty table and the concrete user `exUser`. -/
theorem C5_fetchProfile_witness :
    ∃ p : Profile,
      fetchProfile [] "user-1" (some exUser) 0 none =
        ([] ++ [p], some p,
         [FetchEffect.selectProfile "user-1", FetchEffect.getUser,
          FetchEffect.insertProfile p, FetchEffect.toastProfileCreated]) ∧
      p.id = "user-1" ∧ p.coins = 0 ∧ p.username ≠ "" ∧
      (∀ e, exUser.email = some e → emailLocalPart e ≠ "" →
        p.username = emailLocalPart e) ∧
      (exUser.email = none → p.username = "user_" ++ toString 0) ∧
      (∀ gu now2 ie, fetchProfile ([] ++ [p]) "user-1" gu now2 ie =
        ([] ++ [p], some p, [FetchEffect.selectProfile "user-1"])) :=
  C5_fetchProfile_creates_once [] "user-1" exUser 0 rfl

/-- Claim C9: `updateProfile` fails with no backend call when no
authenticated identity is present; on backend success it merges exactly
the supplied fields into the in-memory profile — every absent field is
left unchanged, every supplied field takes the supplied value — without
re-fetching; on backend failure the in-memory profile is untouched and
the provider error is returned.  The last conjunct is the spec's
example: updating only `display_name` to `"X"` changes only that
field. -/
theorem C9_updateProfile (usr : UserT) (p : Profile) (upd : ProfileUpdates)
    (e : PgError) (profile : Option Profile) (be : Option PgError) :
    updateProfile none profile upd be =
      (profile, some UpdError.notAuthenticated, []) ∧
    updateProfile (some usr) (some p) upd none =
      (some (mergeProfile p upd), none,
       [UpdEffect.dbUpdate usr.id upd, UpdEffect.toastUpdated]) ∧
    updateProfile (some usr) profile upd (some e) =
      (profile, some (UpdError.provider e),
       [UpdEffect.dbUpdate usr.id upd, UpdEffect.toastUpdateFailed e.message]) ∧
    (upd.id = none → (mergeProfile p upd).id = p.id) ∧
    (upd.username = none → (mergeProfile p upd).username = p.username) ∧
    (upd.display_name = none →
      (mergeProfile p upd).display_name = p.display_name) ∧
    (upd.avatar_url = none → (mergeProfile p upd).avatar_url = p.avatar_url) ∧
    (upd.bio = none → (mergeProfile p upd).bio = p.bio) ∧
    (upd.coins = none → (mergeProfile p upd).coins = p.coins) ∧
    (∀ v, upd.id = some v → (mergeProfile p upd).id = v) ∧
    (∀ v, upd.username = some v → (mergeProfile p upd).username = v) ∧
    (∀ v, upd.display_name = some v → (mergeProfile p upd).display_name = v) ∧
    (∀ v, upd.avatar_url = some v → (mergeProfile p upd).avatar_url = v) ∧
    (∀ v, upd.bio = some v → (mergeProfile p upd).bio = v) ∧
    (∀ v, upd.coins = some v → (mergeProfile p upd).coins = v) ∧
    updateProfile (some usr) (some p)
        { display_name := some (some "X") } none =
      (some { p with display_name := some "X" }, none,
       [UpdEffect.dbUpdate usr.id { display_name := some (some "X") },
        UpdEffect.toastUpdated]) := by
  refine ⟨rfl, rfl, rfl, ?_, ?_, ?_, ?_, ?_, ?_, ?_, ?_, ?_, ?_, ?_, ?_, rfl⟩ <;>
    intros <;> simp [mergeProfile, *]

/-- Witness for C9: with no supplied `username`, the merged profile keeps
the previous username. -/
theorem C9_updateProfile_witness :
    (mergeProfile exProfile { display_name := some (some "X") }).username =
      "alice" :=
  (C9_updateProfile exUser exProfile { display_name := some (some "X") }
    { code := "500", message := "boom" } none none).2.2.2.2.1 rfl

/-- Claim C10: the error of the `signUp` username-availability pre-check
is never inspected — with no row data the outcome and the effect trace
are identical whatever that error is, the provider sign-up call is
reached, and no additional notification appears (the traces being equal,
a query failure adds no toast). -/
theorem C10_signUp_precheck_error_discarded (email password username : String)
    (e : PgError) (provider : SignUpProviderResult) :
    signUp email password username { data := none, error := some e } provider =
      signUp email password username { data := none, error := none } provider ∧
    SignUpEffect.providerSignUp email password username ∈
      (signUp email password username { data := none, error := some e }
        provider).2 := by
  constructor
  · rfl
  · rcases provider with ⟨err, il⟩
    cases err with
    | some e2 => simp [signUp]
    | none =>
        by_cases h : il = some 0 <;> simp [signUp, h]

end Sakura
